import Mathlib

/-!
Verification of the procedural-generation and per-frame simulation layer of
the milky-way-visualization repository.

The JavaScript source (src/components/MilkyWayVisualization.jsx and
src/components/GreatWave.jsx) is shallowly embedded here: the numeric
formulas are translated over the real numbers, position buffers become lists
of coordinate triples, and the fallible typed-array allocations become
Option-valued generators.  Definitions follow the source code; definitions
whose names end in `Claimed` or `Spec` instead transcribe the corresponding
sentence of the specification, for comparison with the code.
-/

namespace MilkyWay

/-- A 3D point (x, y, z), one entry of a position buffer. -/
abbrev Pt : Type := ℝ × ℝ × ℝ

/-! ## WaveField (dark-matter surface), MilkyWayVisualization.jsx lines 185-205

The per-frame update reads x and z of each vertex and rewrites y.
`time` is already the product elapsedTime * waveSpeed, as in the source
(`const time = state.clock.elapsedTime * waveSpeed`). -/

/-- Vertex height computed by the WaveField useFrame body (lines 194-199):
wave1 = sin(x*0.1 + time)*2, wave2 = sin(z*0.1 + time*0.6)*2,
wave3 = sin(x*0.05 + z*0.05 + time*0.8)*3,
wave4 = sin(sqrt(x*x + z*z)*0.1 - time*1.2)*1.5,
height = (wave1 + wave2 + wave3 + wave4) * waveIntensity. -/
noncomputable def waveFieldHeight (x z time intensity : ℝ) : ℝ :=
  let wave1 := Real.sin (x * 0.1 + time) * 2
  let wave2 := Real.sin (z * 0.1 + time * 0.6) * 2
  let wave3 := Real.sin (x * 0.05 + z * 0.05 + time * 0.8) * 3
  let wave4 := Real.sin (Real.sqrt (x * x + z * z) * 0.1 - time * 1.2) * 1.5
  (wave1 + wave2 + wave3 + wave4) * intensity

/-- The height formula exactly as the specification (§4.2) states it:
height(x,z,t) = I × [sin(0.1x + t) + sin(0.1z + 0.6t)
  + 1.5·sin(0.05x + 0.05z + 0.8t) + 0.75·sin(0.1·dist(x,z) − 1.2t)],
dist = √(x²+z²).  Transcribed from the spec for comparison with
`waveFieldHeight`. -/
noncomputable def waveFieldHeightClaimed (x z time intensity : ℝ) : ℝ :=
  intensity *
    (Real.sin (0.1 * x + time) + Real.sin (0.1 * z + 0.6 * time)
      + 1.5 * Real.sin (0.05 * x + 0.05 * z + 0.8 * time)
      + 0.75 * Real.sin (0.1 * Real.sqrt (x ^ 2 + z ^ 2) - 1.2 * time))

/-- The WaveField per-frame update over a position buffer: every vertex
(x, y, z) becomes (x, waveFieldHeight x z (elapsed*speed) I, z); x and z are
read from the buffer and only the y slot is written (lines 190-200). -/
noncomputable def waveFieldUpdate (ps : List Pt) (elapsed speed intensity : ℝ) :
    List Pt :=
  ps.map fun p => (p.1, waveFieldHeight p.1 p.2.2 (elapsed * speed) intensity, p.2.2)

/-! ## WaveParticles per-frame update, MilkyWayVisualization.jsx lines 300-319 -/

/-- Per-particle height of the WaveParticles useFrame body (lines 310-314):
wave1 = sin(x*0.1 + z*0.1 + time)*I, wave2 = sin(x*0.05 - z*0.05 + time*0.6)*(I*0.6),
wave3 = sin(sqrt(x*x + z*z)*0.1 - time*0.8)*(I*0.4), height = wave1+wave2+wave3. -/
noncomputable def waveParticlesHeight (x z time intensity : ℝ) : ℝ :=
  let wave1 := Real.sin (x * 0.1 + z * 0.1 + time) * intensity
  let wave2 := Real.sin (x * 0.05 - z * 0.05 + time * 0.6) * (intensity * 0.6)
  let wave3 := Real.sin (Real.sqrt (x * x + z * z) * 0.1 - time * 0.8) * (intensity * 0.4)
  wave1 + wave2 + wave3

/-- The WaveParticles per-frame update: rewrites y of each particle in place
from its unchanged x and z; time = elapsedTime * waveSpeed. -/
noncomputable def waveParticlesUpdate (ps : List Pt) (elapsed speed intensity : ℝ) :
    List Pt :=
  ps.map fun p => (p.1, waveParticlesHeight p.1 p.2.2 (elapsed * speed) intensity, p.2.2)

/-- One whole frame of the WaveParticles layer acting on the particle
buffers: the useFrame callback mutates only the position array (y slots);
the color buffer is not touched by any per-frame code. -/
noncomputable def waveParticlesFrame (ps cols : List Pt) (elapsed speed intensity : ℝ) :
    List Pt × List Pt :=
  (waveParticlesUpdate ps elapsed speed intensity, cols)

/-! ## The Great Wave displacement kernel, GreatWave.jsx lines 58-77 and 154-166 -/

/-- JavaScript Math.atan2, following the ECMAScript definition on real
(finite) arguments; atan2(0, 0) = 0. -/
noncomputable def atan2 (y x : ℝ) : ℝ :=
  if 0 < x then Real.arctan (y / x)
  else if x < 0 then
    (if y < 0 then Real.arctan (y / x) - Real.pi else Real.arctan (y / x) + Real.pi)
  else
    (if 0 < y then Real.pi / 2 else if y < 0 then -(Real.pi / 2) else 0)

/-- Vertical displacement computed in the GreatWave useFrame body
(GreatWave.jsx lines 64-76): distance = sqrt(x*x + z*z),
wavePhase = distance/waveLength - time*waveSpeed,
waveValue = sin(wavePhase*π*2)*waveAmplitude, angle = atan2(z, x),
angularWave = sin(angle*2 + time*waveSpeed*0.5)*waveAmplitude*0.3,
y = waveValue + angularWave. -/
noncomputable def greatWaveDisplacement (x z time amplitude waveLength waveSpeed : ℝ) : ℝ :=
  let distance := Real.sqrt (x * x + z * z)
  let wavePhase := distance / waveLength - time * waveSpeed
  let waveValue := Real.sin (wavePhase * Real.pi * 2) * amplitude
  let angle := atan2 z x
  let angularWave := Real.sin (angle * 2 + time * waveSpeed * 0.5) * amplitude * 0.3
  waveValue + angularWave

/-- Vertical displacement computed in the GreatWaveSurface useFrame body
(GreatWave.jsx lines 154-165); the code is textually the same computation as
in GreatWave. -/
noncomputable def greatWaveSurfaceDisplacement (x z time amplitude waveLength waveSpeed : ℝ) : ℝ :=
  let distance := Real.sqrt (x * x + z * z)
  let wavePhase := distance / waveLength - time * waveSpeed
  let waveValue := Real.sin (wavePhase * Real.pi * 2) * amplitude
  let angle := atan2 z x
  let angularWave := Real.sin (angle * 2 + time * waveSpeed * 0.5) * amplitude * 0.3
  waveValue + angularWave

/-- The TravelingWaveField formula exactly as the specification (§4.3) states
it: distance = √(x²+z²); phase = (distance / waveLength) − (time × waveSpeed);
radial = amplitude × sin(phase × 2π); angle = atan2(z, x);
angular = 0.3 × amplitude × sin(2×angle + time × waveSpeed × 0.5);
result = radial + angular.  Transcribed from the spec for comparison with
the code's `greatWaveDisplacement`. -/
noncomputable def travelingWaveFieldSpec (x z time amplitude waveLength waveSpeed : ℝ) : ℝ :=
  let distance := Real.sqrt (x ^ 2 + z ^ 2)
  let phase := distance / waveLength - time * waveSpeed
  let radial := amplitude * Real.sin (phase * (2 * Real.pi))
  let angle := atan2 z x
  let angular := 0.3 * amplitude * Real.sin (2 * angle + time * waveSpeed * 0.5)
  radial + angular

/-- The GreatWave per-frame update: the useFrame body runs only when
showWave is set; it rewrites y of each particle from its unchanged x, z. -/
noncomputable def greatWaveUpdate (sw : Bool) (ps : List Pt) (time amplitude waveLength waveSpeed : ℝ) :
    List Pt :=
  if sw then
    ps.map fun p => (p.1, greatWaveDisplacement p.1 p.2.2 time amplitude waveLength waveSpeed, p.2.2)
  else ps

/-! ## ProximityGraphBuilder, MilkyWayVisualization.jsx lines 284-295

```js
const connectionLines = [];
for (let i = 0; i < count; i++) {
  for (let j = i + 1; j < count; j++) {
    const distance = particlePositions[i].distanceTo(particlePositions[j]);
    if (distance < connectionDistance) {
      connectionLines.push([i, j]);
      if (connectionLines.length >= maxConnections) break;
    }
  }
  if (connectionLines.length >= maxConnections) break;
}
```

The position buffer is modelled as a function from indices to points; the
inner loop receives the list of remaining j indices, the outer loop the
list of remaining i indices.  Note the length test runs only after a push
(inner) or after a whole row (outer). -/

/-- Euclidean distance between two 3D points (THREE.Vector3.distanceTo). -/
noncomputable def dist3 (p q : Pt) : ℝ :=
  Real.sqrt ((p.1 - q.1) ^ 2 + (p.2.1 - q.2.1) ^ 2 + (p.2.2 - q.2.2) ^ 2)

/-- Inner loop of the connection build for row i: scan the j indices in
order; push (i, j) when the distance test passes; stop the row as soon as
the accumulated list reaches maxConnections. -/
noncomputable def buildInner (pos : ℕ → Pt) (connDist : ℝ) (maxC : ℤ) (i : ℕ) :
    List (ℕ × ℕ) → List ℕ → List (ℕ × ℕ)
  | acc, [] => acc
  | acc, j :: js =>
    if dist3 (pos i) (pos j) < connDist then
      if maxC ≤ (acc.length : ℤ) + 1 then acc ++ [(i, j)]
      else buildInner pos connDist maxC i (acc ++ [(i, j)]) js
    else buildInner pos connDist maxC i acc js

/-- Outer loop of the connection build: after each row, stop when the
accumulated list has reached maxConnections. -/
noncomputable def buildOuter (pos : ℕ → Pt) (connDist : ℝ) (maxC : ℤ) (n : ℕ) :
    List (ℕ × ℕ) → List ℕ → List (ℕ × ℕ)
  | acc, [] => acc
  | acc, i :: is =>
    let acc2 := buildInner pos connDist maxC i acc (List.range' (i + 1) (n - (i + 1)))
    if maxC ≤ (acc2.length : ℤ) then acc2 else buildOuter pos connDist maxC n acc2 is

/-- The connection build of the WaveParticles useMemo: scan all rows
i = 0 .. n−1 (j ranging over i+1 .. n−1) starting from the empty list. -/
noncomputable def buildConnections (pos : ℕ → Pt) (n : ℕ) (connDist : ℝ) (maxC : ℤ) :
    List (ℕ × ℕ) :=
  buildOuter pos connDist maxC n [] (List.range n)

/-- Every pair produced by the inner loop is either carried over from the
accumulator or is a fresh pair (i, j) with j among the scanned indices and
distance below the threshold. -/
lemma buildInner_mem (pos : ℕ → Pt) (connDist : ℝ) (maxC : ℤ) (i : ℕ) :
    ∀ (js : List ℕ) (acc : List (ℕ × ℕ)) (p : ℕ × ℕ),
      p ∈ buildInner pos connDist maxC i acc js →
      p ∈ acc ∨ (p.1 = i ∧ p.2 ∈ js ∧ dist3 (pos i) (pos p.2) < connDist) := by
  intro js
  induction js with
  | nil => intro acc p hp; exact Or.inl hp
  | cons j js ih =>
    intro acc p hp
    simp only [buildInner] at hp
    by_cases hd : dist3 (pos i) (pos j) < connDist
    · rw [if_pos hd] at hp
      by_cases hm : maxC ≤ (acc.length : ℤ) + 1
      · rw [if_pos hm] at hp
        rcases List.mem_append.mp hp with h | h
        · exact Or.inl h
        · simp only [List.mem_singleton] at h
          subst h
          exact Or.inr ⟨rfl, List.mem_cons_self .., hd⟩
      · rw [if_neg hm] at hp
        rcases ih (acc ++ [(i, j)]) p hp with h | h
        · rcases List.mem_append.mp h with h' | h'
          · exact Or.inl h'
          · simp only [List.mem_singleton] at h'
            subst h'
            exact Or.inr ⟨rfl, List.mem_cons_self .., hd⟩
        · exact Or.inr ⟨h.1, List.mem_cons_of_mem _ h.2.1, h.2.2⟩
    · rw [if_neg hd] at hp
      rcases ih acc p hp with h | h
      · exact Or.inl h
      · exact Or.inr ⟨h.1, List.mem_cons_of_mem _ h.2.1, h.2.2⟩

/-- If the accumulator is still below the cap, the inner loop's output
stays within the cap (it stops as soon as the cap is reached). -/
lemma buildInner_length_le (pos : ℕ → Pt) (connDist : ℝ) (maxC : ℤ) (i : ℕ) :
    ∀ (js : List ℕ) (acc : List (ℕ × ℕ)), (acc.length : ℤ) < maxC →
      ((buildInner pos connDist maxC i acc js).length : ℤ) ≤ maxC := by
  intro js
  induction js with
  | nil => intro acc h; simpa [buildInner] using h.le
  | cons j js ih =>
    intro acc h
    simp only [buildInner]
    by_cases hd : dist3 (pos i) (pos j) < connDist
    · rw [if_pos hd]
      by_cases hm : maxC ≤ (acc.length : ℤ) + 1
      · rw [if_pos hm]
        simp only [List.length_append, List.length_singleton]
        push_cast
        omega
      · rw [if_neg hm]
        apply ih
        simp only [List.length_append, List.length_singleton]
        push_cast
        omega
    · rw [if_neg hd]; exact ih acc h

/-- The inner loop preserves freedom from duplicates, provided the scanned
j indices are distinct and no accumulated pair of row i mentions one of
them. -/
lemma buildInner_nodup (pos : ℕ → Pt) (connDist : ℝ) (maxC : ℤ) (i : ℕ) :
    ∀ (js : List ℕ) (acc : List (ℕ × ℕ)), acc.Nodup → js.Nodup →
      (∀ p ∈ acc, p.1 ≠ i ∨ p.2 ∉ js) →
      (buildInner pos connDist maxC i acc js).Nodup := by
  intro js
  induction js with
  | nil => intro acc ha _ _; simpa [buildInner] using ha
  | cons j js ih =>
    intro acc ha hjs hfresh
    have hnotmem : (i, j) ∉ acc := by
      intro hmem
      rcases hfresh (i, j) hmem with h | h
      · exact h rfl
      · exact h (List.mem_cons_self ..)
    have ha2 : (acc ++ [(i, j)]).Nodup := by
      rw [List.nodup_append]
      exact ⟨ha, List.nodup_singleton _, by simpa using hnotmem⟩
    simp only [buildInner]
    by_cases hd : dist3 (pos i) (pos j) < connDist
    · rw [if_pos hd]
      by_cases hm : maxC ≤ (acc.length : ℤ) + 1
      · rw [if_pos hm]; exact ha2
      · rw [if_neg hm]
        apply ih (acc ++ [(i, j)]) ha2 (List.Nodup.of_cons hjs)
        intro p hp
        rcases List.mem_append.mp hp with h | h
        · rcases hfresh p h with h' | h'
          · exact Or.inl h'
          · exact Or.inr fun hmem => h' (List.mem_cons_of_mem _ hmem)
        · simp only [List.mem_singleton] at h
          subst h
          exact Or.inr (List.Nodup.not_mem hjs)
    · rw [if_neg hd]
      apply ih acc ha (List.Nodup.of_cons hjs)
      intro p hp
      rcases hfresh p hp with h | h
      · exact Or.inl h
      · exact Or.inr fun hmem => h (List.mem_cons_of_mem _ hmem)

/-- Every pair produced by the outer loop is either carried over from the
accumulator or is a fresh in-range pair (i, j), i < j < n, whose distance
was below the threshold. -/
lemma buildOuter_mem (pos : ℕ → Pt) (connDist : ℝ) (maxC : ℤ) (n : ℕ) :
    ∀ (is : List ℕ) (acc : List (ℕ × ℕ)) (p : ℕ × ℕ), (∀ i ∈ is, i < n) →
      p ∈ buildOuter pos connDist maxC n acc is →
      p ∈ acc ∨ (p.1 ∈ is ∧ p.1 < p.2 ∧ p.2 < n ∧ dist3 (pos p.1) (pos p.2) < connDist) := by
  intro is
  induction is with
  | nil => intro acc p _ hp; exact Or.inl hp
  | cons i is ih =>
    intro acc p hlt hp
    simp only [buildOuter] at hp
    have hfresh : ∀ q ∈ buildInner pos connDist maxC i acc (List.range' (i + 1) (n - (i + 1))),
        q ∈ acc ∨ (q.1 = i ∧ q.1 < q.2 ∧ q.2 < n ∧ dist3 (pos q.1) (pos q.2) < connDist) := by
      intro q hq
      rcases buildInner_mem pos connDist maxC i _ acc q hq with h | h
      · exact Or.inl h
      · refine Or.inr ⟨h.1, ?_, ?_, by rw [h.1]; exact h.2.2⟩
        · rcases List.mem_range'_1.mp h.2.1 with ⟨h1, _⟩
          omega
        · rcases List.mem_range'_1.mp h.2.1 with ⟨_, h2⟩
          have hin : i < n := hlt i (List.mem_cons_self ..)
          omega
    by_cases hm : maxC ≤ ((buildInner pos connDist maxC i acc (List.range' (i + 1) (n - (i + 1)))).length : ℤ)
    · rw [if_pos hm] at hp
      rcases hfresh p hp with h | h
      · exact Or.inl h
      · exact Or.inr ⟨by rw [h.1]; exact List.mem_cons_self .., h.2⟩
    · rw [if_neg hm] at hp
      rcases ih _ p (fun i' hi' => hlt i' (List.mem_cons_of_mem _ hi')) hp with h | h
      · rcases hfresh p h with h' | h'
        · exact Or.inl h'
        · exact Or.inr ⟨by rw [h'.1]; exact List.mem_cons_self .., h'.2⟩
      · exact Or.inr ⟨List.mem_cons_of_mem _ h.1, h.2⟩

/-- If the accumulator is below the cap, the outer loop's result stays
within the cap. -/
lemma buildOuter_length_le (pos : ℕ → Pt) (connDist : ℝ) (maxC : ℤ) (n : ℕ) :
    ∀ (is : List ℕ) (acc : List (ℕ × ℕ)), (acc.length : ℤ) < maxC →
      ((buildOuter pos connDist maxC n acc is).length : ℤ) ≤ maxC := by
  intro is
  induction is with
  | nil => intro acc h; exact h.le
  | cons i is ih =>
    intro acc h
    simp only [buildOuter]
    have hin := buildInner_length_le pos connDist maxC i (List.range' (i + 1) (n - (i + 1))) acc h
    by_cases hm : maxC ≤ ((buildInner pos connDist maxC i acc (List.range' (i + 1) (n - (i + 1)))).length : ℤ)
    · rw [if_pos hm]; exact hin
    · rw [if_neg hm]
      exact ih _ (lt_of_not_le hm)

/-- The outer loop preserves freedom from duplicates, given that the
remaining row indices are distinct and unused by accumulated pairs. -/
lemma buildOuter_nodup (pos : ℕ → Pt) (connDist : ℝ) (maxC : ℤ) (n : ℕ) :
    ∀ (is : List ℕ) (acc : List (ℕ × ℕ)), acc.Nodup → is.Nodup →
      (∀ p ∈ acc, p.1 ∉ is) →
      (buildOuter pos connDist maxC n acc is).Nodup := by
  intro is
  induction is with
  | nil => intro acc ha _ _; exact ha
  | cons i is ih =>
    intro acc ha his hfresh
    have ha2 : (buildInner pos connDist maxC i acc (List.range' (i + 1) (n - (i + 1)))).Nodup := by
      apply buildInner_nodup pos connDist maxC i _ acc ha (List.nodup_range' ..)
      intro p hp
      exact Or.inl fun hpi => hfresh p hp (hpi ▸ List.mem_cons_self ..)
    simp only [buildOuter]
    by_cases hm : maxC ≤ ((buildInner pos connDist maxC i acc (List.range' (i + 1) (n - (i + 1)))).length : ℤ)
    · rw [if_pos hm]; exact ha2
    · rw [if_neg hm]
      apply ih _ ha2 (List.Nodup.of_cons his)
      intro p hp
      rcases buildInner_mem pos connDist maxC i _ acc p hp with h | h
      · intro hmem
        exact hfresh p h (List.mem_cons_of_mem _ hmem)
      · rw [h.1]
        exact List.Nodup.not_mem his

/-- An all-zero position buffer, used to instantiate the builder on a
concrete input. -/
def zeroPos : ℕ → Pt := fun _ => ((0 : ℝ), (0 : ℝ), (0 : ℝ))

/-- Concrete run of the builder: two coincident particles, threshold 1,
maxConnections 0.  The length test runs only after the push, so the first
qualifying pair is still recorded. -/
lemma buildConnections_two_coincident :
    buildConnections zeroPos 2 1 0 = [(0, 1)] := by
  have hd : dist3 (zeroPos 0) (zeroPos 1) < 1 := by
    norm_num [dist3, zeroPos, Real.sqrt_zero]
  unfold buildConnections
  rw [show List.range 2 = [0, 1] from by decide]
  simp only [buildOuter]
  rw [show (2 : ℕ) - (0 + 1) = 1 from by norm_num,
    show List.range' (0 + 1) 1 = [1] from by decide]
  simp only [buildInner]
  rw [if_pos hd, if_pos (by norm_num : (0 : ℤ) ≤ (([] : List (ℕ × ℕ)).length : ℤ) + 1)]
  simp

/-! ## Galaxy generator, MilkyWayVisualization.jsx lines 24-100

Each loop iteration draws fresh uniform samples from Math.random(); the
injectable random source is modelled as one record of unit-interval draws
per particle, one field per Math.random() call site. -/

/-- The Math.random() draws one galaxy-loop iteration consumes, in call
order: angle, radius, bulge phi, bulge theta, bulge radial fraction, disk
vertical offset, and the three jitter terms. -/
structure GalaxyRand where
  uAngle : ℝ
  uRadius : ℝ
  uPhi : ℝ
  uTheta : ℝ
  uR : ℝ
  uY : ℝ
  uJx : ℝ
  uJy : ℝ
  uJz : ℝ

/-- Bar perturbation (lines 49-52): cos(angle*2) × (1 − normalizedRadius)
when radius < barLength, else 0;
normalizedRadius = (radius − bulgeSize)/(galaxyRadius − bulgeSize). -/
noncomputable def galaxyBarInfluence (u : GalaxyRand) (galaxyRadius barLength bulgeSize : ℝ) : ℝ :=
  if u.uRadius * galaxyRadius < barLength then
    Real.cos (u.uAngle * Real.pi * 2 * 2)
      * (1 - (u.uRadius * galaxyRadius - bulgeSize) / (galaxyRadius - bulgeSize))
  else 0

/-- Spiral-arm angle (lines 55-57): armIndex = ⌊(angle/2π)·armCount⌋,
armAngle = (armIndex/armCount)·2π,
spiralAngle = armAngle + ln(radius/bulgeSize) × spiralTightness. -/
noncomputable def galaxySpiralAngle (u : GalaxyRand) (galaxyRadius armCount bulgeSize spiralTightness : ℝ) : ℝ :=
  ((⌊u.uAngle * Real.pi * 2 / (Real.pi * 2) * armCount⌋ : ℤ) : ℝ) / armCount * (Real.pi * 2)
    + Real.log (u.uRadius * galaxyRadius / bulgeSize) * spiralTightness

/-- finalAngle = spiralAngle + barInfluence × 0.3 (line 60). -/
noncomputable def galaxyFinalAngle (u : GalaxyRand) (galaxyRadius armCount barLength bulgeSize spiralTightness : ℝ) : ℝ :=
  galaxySpiralAngle u galaxyRadius armCount bulgeSize spiralTightness
    + galaxyBarInfluence u galaxyRadius barLength bulgeSize * 0.3

/-- Pre-jitter particle position (lines 36-65).  angle = uAngle·2π,
radius = uRadius·galaxyRadius.  Bulge branch (radius < bulgeSize):
phi = acos(2u−1), theta = uTheta·2π, r = radius·(0.3 + 0.7u),
(x, y, z) = (r·sinφ·cosθ, r·sinφ·sinθ·0.3, r·cosφ).  Disk branch:
(x, z) = (cos finalAngle, sin finalAngle)·radius,
y = (u−0.5)·0.4·(1 − normalizedRadius·0.5). -/
noncomputable def galaxyBase (u : GalaxyRand) (galaxyRadius armCount barLength bulgeSize spiralTightness : ℝ) : Pt :=
  if u.uRadius * galaxyRadius < bulgeSize then
    (u.uRadius * galaxyRadius * (0.3 + u.uR * 0.7) * Real.sin (Real.arccos (2 * u.uPhi - 1))
       * Real.cos (u.uTheta * Real.pi * 2),
     u.uRadius * galaxyRadius * (0.3 + u.uR * 0.7) * Real.sin (Real.arccos (2 * u.uPhi - 1))
       * Real.sin (u.uTheta * Real.pi * 2) * 0.3,
     u.uRadius * galaxyRadius * (0.3 + u.uR * 0.7) * Real.cos (Real.arccos (2 * u.uPhi - 1)))
  else
    (Real.cos (galaxyFinalAngle u galaxyRadius armCount barLength bulgeSize spiralTightness)
       * (u.uRadius * galaxyRadius),
     (u.uY - 0.5) * 0.4
       * (1 - (u.uRadius * galaxyRadius - bulgeSize) / (galaxyRadius - bulgeSize) * 0.5),
     Real.sin (galaxyFinalAngle u galaxyRadius armCount barLength bulgeSize spiralTightness)
       * (u.uRadius * galaxyRadius))

/-- Final particle position after the per-axis jitter of lines 68-70:
x += (u−0.5)·0.3, y += (u−0.5)·0.2, z += (u−0.5)·0.3. -/
noncomputable def galaxyParticle (u : GalaxyRand) (galaxyRadius armCount barLength bulgeSize spiralTightness : ℝ) : Pt :=
  ((galaxyBase u galaxyRadius armCount barLength bulgeSize spiralTightness).1
     + (u.uJx - 0.5) * 0.3,
   (galaxyBase u galaxyRadius armCount barLength bulgeSize spiralTightness).2.1
     + (u.uJy - 0.5) * 0.2,
   (galaxyBase u galaxyRadius armCount barLength bulgeSize spiralTightness).2.2
     + (u.uJz - 0.5) * 0.3)

/-- Planar distance from the origin, √(x²+z²) (line 77). -/
noncomputable def planarDist (p : Pt) : ℝ :=
  Real.sqrt (p.1 ^ 2 + p.2.2 ^ 2)

/-- The Math.random() draws of one color computation (three per branch). -/
structure ColorRand where
  u1 : ℝ
  u2 : ℝ
  u3 : ℝ

/-- Star color (lines 77-91): band chosen by
normalizedDistance = min(√(x²+z²)/galaxyRadius, 1); the HSL→RGB conversion
(THREE.Color.setHSL) is external library code, taken as a parameter. -/
noncomputable def galaxyColor (setHSL : ℝ → ℝ → ℝ → Pt) (c : ColorRand) (x z galaxyRadius : ℝ) : Pt :=
  if min (Real.sqrt (x * x + z * z) / galaxyRadius) 1 < 0.3 then
    setHSL (0.1 + c.u1 * 0.05) (0.7 + c.u2 * 0.2) (0.6 + c.u3 * 0.3)
  else if min (Real.sqrt (x * x + z * z) / galaxyRadius) 1 < 0.6 then
    setHSL (0.08 + c.u1 * 0.1) (0.3 + c.u2 * 0.3) (0.7 + c.u3 * 0.2)
  else
    setHSL (0.55 + c.u1 * 0.1) (0.6 + c.u2 * 0.3) (0.5 + c.u3 * 0.3)

/-! ## Generators as fallible functions

`new Float32Array(len)` throws a RangeError when ToIndex(len) fails, in
particular for every negative len; a generator whose allocation throws is
modelled as `none`. -/

/-- A generated particle layer: a position buffer and a color buffer. -/
structure ParticleSet where
  positions : List Pt
  colors : List Pt

/-- Galaxy particles useMemo (lines 24-99): allocates Float32Array(count·3)
buffers, then runs the particle loop `for (i = 0; i < count; i++)`. -/
noncomputable def galaxyGen (setHSL : ℝ → ℝ → ℝ → Pt) (rand : ℕ → GalaxyRand)
    (crand : ℕ → ColorRand) (count : ℤ)
    (galaxyRadius armCount barLength bulgeSize spiralTightness : ℝ) :
    Option ParticleSet :=
  if count * 3 < 0 then none
  else
    some
      { positions := (List.range count.toNat).map fun i =>
          galaxyParticle (rand i) galaxyRadius armCount barLength bulgeSize spiralTightness,
        colors := (List.range count.toNat).map fun i =>
          galaxyColor setHSL (crand i)
            (galaxyParticle (rand i) galaxyRadius armCount barLength bulgeSize spiralTightness).1
            (galaxyParticle (rand i) galaxyRadius armCount barLength bulgeSize spiralTightness).2.2
            galaxyRadius }

/-- The Math.random() draws of one WaveParticles-loop iteration: position
x, y, z and the two color draws. -/
structure WPRand where
  ux : ℝ
  uy : ℝ
  uz : ℝ
  uh : ℝ
  ul : ℝ

/-- WaveParticles position sample (lines 264-266): a uniform point in the
100 × 30 × 100 box centred at the origin. -/
noncomputable def wpPoint (w : WPRand) : Pt :=
  ((w.ux - 0.5) * 100, (w.uy - 0.5) * 30, (w.uz - 0.5) * 100)

/-- WaveParticles useMemo (lines 257-298): allocates Float32Array(count·3)
buffers, fills positions and colors, then builds the connection list over
the generated positions. -/
noncomputable def waveParticlesGen (setHSL : ℝ → ℝ → ℝ → Pt) (rand : ℕ → WPRand)
    (count : ℤ) (connectionDistance : ℝ) (maxConnections : ℤ) (baseHue : ℝ) :
    Option (ParticleSet × List (ℕ × ℕ)) :=
  if count * 3 < 0 then none
  else
    some
      ({ positions := (List.range count.toNat).map fun i => wpPoint (rand i),
         colors := (List.range count.toNat).map fun i =>
           setHSL (baseHue + ((rand i).uh - 0.5) * 0.1) 0.8 (0.3 + (rand i).ul * 0.2) },
       buildConnections (fun i => wpPoint (rand i)) count.toNat connectionDistance maxConnections)

/-- The Math.random() draws of one GreatWave-loop iteration. -/
structure GWRand where
  uAngle : ℝ
  uRadius : ℝ
  uh : ℝ
  ul : ℝ

/-- GreatWave useMemo (GreatWave.jsx lines 21-48): allocates
Float32Array(particleCount·3) buffers; each particle sits at
radius (0.6 + 0.7u)·galaxyRadius and angle 2πu with y = 0. -/
noncomputable def greatWaveGen (setHSL : ℝ → ℝ → ℝ → Pt) (rand : ℕ → GWRand)
    (count : ℤ) (galaxyRadius : ℝ) : Option ParticleSet :=
  if count * 3 < 0 then none
  else
    some
      { positions := (List.range count.toNat).map fun i =>
          (Real.cos ((rand i).uAngle * Real.pi * 2)
             * ((0.6 + (rand i).uRadius * 0.7) * galaxyRadius),
           0,
           Real.sin ((rand i).uAngle * Real.pi * 2)
             * ((0.6 + (rand i).uRadius * 0.7) * galaxyRadius)),
        colors := (List.range count.toNat).map fun i =>
          setHSL (0.05 + (rand i).uh * 0.1) 0.7 (0.5 + (rand i).ul * 0.3) }

/-! ## JavaScript double specials for the unguarded spiral logarithm

Over the reals every expression is finite, so the effect of a zero or
negative `bulgeSize` in `Math.log(radius / bulgeSize)` (line 57) is made
visible by evaluating that one expression chain with JavaScript's special
values: division by zero gives a signed infinity, log of a negative number
gives NaN, and cos of a non-finite value gives NaN. -/

/-- A JavaScript double as relevant here: a finite real, a signed infinity
(`inf true` = +∞), or NaN.  Rounding of finite values is not modelled. -/
inductive JVal where
  | num : ℝ → JVal
  | inf : Bool → JVal
  | nan : JVal

/-- JS division of finite a by finite b. -/
noncomputable def jsDiv (a b : ℝ) : JVal :=
  if b = 0 then (if a = 0 then .nan else if 0 < a then .inf true else .inf false)
  else .num (a / b)

/-- JS Math.log on a JVal. -/
noncomputable def jsLog : JVal → JVal
  | .num x => if x < 0 then .nan else if x = 0 then .inf false else .num (Real.log x)
  | .inf b => if b then .inf true else .nan
  | .nan => .nan

/-- JS multiplication of a JVal by a finite constant. -/
noncomputable def jsMulNum : JVal → ℝ → JVal
  | .num x, c => .num (x * c)
  | .inf b, c => if c = 0 then .nan else if 0 < c then .inf b else .inf (!b)
  | .nan, _ => .nan

/-- JS addition of a finite constant and a JVal. -/
def jsAddNum : ℝ → JVal → JVal
  | c, .num x => .num (c + x)
  | _, .inf b => .inf b
  | _, .nan => .nan

/-- JS addition of a JVal and a finite constant. -/
def jsAddNumR : JVal → ℝ → JVal
  | .num x, c => .num (x + c)
  | .inf b, _ => .inf b
  | .nan, _ => .nan

/-- JS Math.cos on a JVal: NaN on any non-finite argument. -/
noncomputable def jsCos : JVal → JVal
  | .num x => .num (Real.cos x)
  | _ => .nan

/-- A JVal is finite when it is an ordinary number. -/
def jsFinite : JVal → Prop
  | .num _ => True
  | _ => False

/-- JS evaluation of line 57,
`spiralAngle = armAngle + Math.log(radius / bulgeSize) * spiralTightness`. -/
noncomputable def spiralAngleJS (radius bulgeSize spiralTightness armAngle : ℝ) : JVal :=
  jsAddNum armAngle (jsMulNum (jsLog (jsDiv radius bulgeSize)) spiralTightness)

/-- JS evaluation of line 62, `x = Math.cos(finalAngle) * radius` with
finalAngle = spiralAngle + barInfluence·0.3 (line 60). -/
noncomputable def spiralXJS (radius bulgeSize spiralTightness armAngle barInfluence : ℝ) : JVal :=
  jsMulNum
    (jsCos (jsAddNumR (spiralAngleJS radius bulgeSize spiralTightness armAngle)
      (barInfluence * 0.3)))
    radius

/-! ## Helper lemmas -/

/-- Rewriting only the y slot from the (unchanged) x and z slots is an
idempotent transformation of a position buffer. -/
lemma map_yRewrite_idem (h : ℝ → ℝ → ℝ) (ps : List Pt) :
    (ps.map fun p => ((p.1 : ℝ), h p.1 p.2.2, p.2.2)).map
        (fun p => ((p.1 : ℝ), h p.1 p.2.2, p.2.2)) =
      ps.map fun p => ((p.1 : ℝ), h p.1 p.2.2, p.2.2) := by
  induction ps with
  | nil => simp
  | cons a l ih => simp [ih]

/-- Adding per-axis jitter of magnitude at most 0.15 to a planar point of
norm at most r moves it to planar distance at most r + 0.3. -/
lemma planar_jitter_bound (px pz a c r : ℝ) (hb : px ^ 2 + pz ^ 2 ≤ r ^ 2)
    (hr : 0 ≤ r) (ha : |a| ≤ 0.15) (hc : |c| ≤ 0.15) :
    Real.sqrt ((px + a) ^ 2 + (pz + c) ^ 2) ≤ r + 0.3 := by
  have hpx : |px| ≤ r := by
    have h1 : px ^ 2 ≤ r ^ 2 := by nlinarith [sq_nonneg pz]
    have h2 := Real.sqrt_le_sqrt h1
    rwa [Real.sqrt_sq_eq_abs, Real.sqrt_sq hr] at h2
  have hpz : |pz| ≤ r := by
    have h1 : pz ^ 2 ≤ r ^ 2 := by nlinarith [sq_nonneg px]
    have h2 := Real.sqrt_le_sqrt h1
    rwa [Real.sqrt_sq_eq_abs, Real.sqrt_sq hr] at h2
  rcases abs_le.mp ha with ⟨ha1, ha2⟩
  rcases abs_le.mp hc with ⟨hc1, hc2⟩
  rcases abs_le.mp hpx with ⟨hx1, hx2⟩
  rcases abs_le.mp hpz with ⟨hz1, hz2⟩
  have hsum : (px + a) ^ 2 + (pz + c) ^ 2 ≤ (r + 0.3) ^ 2 := by
    nlinarith [mul_nonneg (by linarith : (0:ℝ) ≤ 0.15 - a) (by linarith : (0:ℝ) ≤ r + px),
      mul_nonneg (by linarith : (0:ℝ) ≤ 0.15 + a) (by linarith : (0:ℝ) ≤ r - px),
      mul_nonneg (by linarith : (0:ℝ) ≤ 0.15 - c) (by linarith : (0:ℝ) ≤ r + pz),
      mul_nonneg (by linarith : (0:ℝ) ≤ 0.15 + c) (by linarith : (0:ℝ) ≤ r - pz),
      mul_nonneg (by linarith : (0:ℝ) ≤ 0.15 - a) (by linarith : (0:ℝ) ≤ 0.15 + a),
      mul_nonneg (by linarith : (0:ℝ) ≤ 0.15 - c) (by linarith : (0:ℝ) ≤ 0.15 + c)]
  calc Real.sqrt ((px + a) ^ 2 + (pz + c) ^ 2)
      ≤ Real.sqrt ((r + 0.3) ^ 2) := Real.sqrt_le_sqrt hsum
    _ = r + 0.3 := Real.sqrt_sq (by linarith)

/-- The pre-jitter galaxy position satisfies x² + z² ≤ radius², where
radius = uRadius·galaxyRadius: in the bulge branch the point lies inside
the sphere of radius r ≤ radius, in the disk branch exactly on the circle
of radius `radius`. -/
lemma galaxyBase_sq_le (u : GalaxyRand) (galaxyRadius armCount barLength bulgeSize spiralTightness : ℝ)
    (hur0 : 0 ≤ u.uR) (hur1 : u.uR ≤ 1) :
    (galaxyBase u galaxyRadius armCount barLength bulgeSize spiralTightness).1 ^ 2
        + (galaxyBase u galaxyRadius armCount barLength bulgeSize spiralTightness).2.2 ^ 2
      ≤ (u.uRadius * galaxyRadius) ^ 2 := by
  unfold galaxyBase
  by_cases hbr : u.uRadius * galaxyRadius < bulgeSize
  · rw [if_pos hbr]
    have h1 : Real.sin (Real.arccos (2 * u.uPhi - 1)) ^ 2
          * Real.cos (u.uTheta * Real.pi * 2) ^ 2
          + Real.cos (Real.arccos (2 * u.uPhi - 1)) ^ 2 ≤ 1 := by
      nlinarith [Real.sin_sq_add_cos_sq (Real.arccos (2 * u.uPhi - 1)),
        Real.cos_sq_le_one (u.uTheta * Real.pi * 2),
        sq_nonneg (Real.sin (Real.arccos (2 * u.uPhi - 1)))]
    have h2 : (0.3 + u.uR * 0.7) ^ 2 ≤ 1 := by nlinarith
    have hc2 : (0 : ℝ) ≤ (u.uRadius * galaxyRadius) ^ 2 * (0.3 + u.uR * 0.7) ^ 2 := by
      positivity
    have key1 : (u.uRadius * galaxyRadius) ^ 2 * (0.3 + u.uR * 0.7) ^ 2
          * (Real.sin (Real.arccos (2 * u.uPhi - 1)) ^ 2
              * Real.cos (u.uTheta * Real.pi * 2) ^ 2
            + Real.cos (Real.arccos (2 * u.uPhi - 1)) ^ 2)
        ≤ (u.uRadius * galaxyRadius) ^ 2 * (0.3 + u.uR * 0.7) ^ 2 * 1 :=
      mul_le_mul_of_nonneg_left h1 hc2
    have key2 : (u.uRadius * galaxyRadius) ^ 2 * (0.3 + u.uR * 0.7) ^ 2
        ≤ (u.uRadius * galaxyRadius) ^ 2 * 1 :=
      mul_le_mul_of_nonneg_left h2 (sq_nonneg _)
    nlinarith [key1, key2]
  · rw [if_neg hbr]
    nlinarith [Real.sin_sq_add_cos_sq
      (galaxyFinalAngle u galaxyRadius armCount barLength bulgeSize spiralTightness)]

/-- The code's WaveField height is pointwise exactly twice the value the
specification's formula gives: the code multiplies the four sine terms by
2, 2, 3 and 1.5 while the spec's bracket uses 1, 1, 1.5 and 0.75. -/
lemma waveFieldHeight_eq_two_mul (x z time intensity : ℝ) :
    waveFieldHeight x z time intensity = 2 * waveFieldHeightClaimed x z time intensity := by
  simp only [waveFieldHeight, waveFieldHeightClaimed]
  have hsq : x * x + z * z = x ^ 2 + z ^ 2 := by ring
  have h1 : x * 0.1 + time = 0.1 * x + time := by ring
  have h2 : z * 0.1 + time * 0.6 = 0.1 * z + 0.6 * time := by ring
  have h3 : x * 0.05 + z * 0.05 + time * 0.8 = 0.05 * x + 0.05 * z + 0.8 * time := by ring
  have h4 : Real.sqrt (x * x + z * z) * 0.1 - time * 1.2
      = 0.1 * Real.sqrt (x ^ 2 + z ^ 2) - 1.2 * time := by rw [hsq]; ring
  rw [h1, h2, h3, h4]
  ring

/-- Claim C1 (counterexample): at the grid vertex (x, z) = (0, 0) (vertex
i = j = segments/2 of the default grid), with elapsedTime = 1,
waveSpeed = 0.5 (so t = 0.5) and waveIntensity = 1, the height the code
computes differs from the height the specification's formula prescribes
(the code's value is twice the spec's, and the spec's value is nonzero
there). -/
theorem waveField_height_ne_claimed_at_origin :
    waveFieldHeight 0 0 (1 * 0.5) 1 ≠ waveFieldHeightClaimed 0 0 (1 * 0.5) 1 := by
  rw [waveFieldHeight_eq_two_mul]
  have hb : 0 < waveFieldHeightClaimed 0 0 (1 * 0.5) 1 := by
    simp only [waveFieldHeightClaimed]
    have e0 : (0:ℝ) * 0 + 0 * 0 = 0 := by ring
    have hs0 : Real.sqrt ((0:ℝ) ^ 2 + 0 ^ 2) = 0 := by
      norm_num
    rw [hs0]
    have harg1 : (0.1 : ℝ) * 0 + 1 * 0.5 = 0.5 := by norm_num
    have harg2 : (0.1 : ℝ) * 0 + 0.6 * (1 * 0.5) = 0.3 := by norm_num
    have harg3 : (0.05 : ℝ) * 0 + 0.05 * 0 + 0.8 * (1 * 0.5) = 0.4 := by norm_num
    have harg4 : (0.1 : ℝ) * 0 - 1.2 * (1 * 0.5) = -0.6 := by norm_num
    rw [harg1, harg2, harg3, harg4, Real.sin_neg]
    have hpi : (3 : ℝ) < Real.pi := Real.pi_gt_three
    have h05 : (0.5 : ℝ) - 0.5 ^ 3 / 4 < Real.sin 0.5 :=
      Real.sin_gt_sub_cube (by norm_num) (by norm_num)
    have h03 : 0 < Real.sin (0.3 : ℝ) :=
      Real.sin_pos_of_pos_of_lt_pi (by norm_num) (by linarith)
    have h04 : 0 < Real.sin (0.4 : ℝ) :=
      Real.sin_pos_of_pos_of_lt_pi (by norm_num) (by linarith)
    have h06 : Real.sin (0.6 : ℝ) < 0.6 := Real.sin_lt (by norm_num)
    nlinarith
  intro h
  nlinarith

/-- Claim C1 (amended): the WaveField per-frame update sets every vertex
height to I × [2·sin(0.1x + t) + 2·sin(0.1z + 0.6t)
+ 3·sin(0.05x + 0.05z + 0.8t) + 1.5·sin(0.1·√(x²+z²) − 1.2t)] with
t = elapsedTime × waveSpeed — exactly twice the value claimed by the
specification's formula — while leaving x and z unchanged. -/
theorem waveField_update_sets_heights (ps : List Pt) (elapsed speed intensity : ℝ) :
    waveFieldUpdate ps elapsed speed intensity =
      ps.map fun p =>
        (p.1, 2 * waveFieldHeightClaimed p.1 p.2.2 (elapsed * speed) intensity, p.2.2) := by
  simp only [waveFieldUpdate, waveFieldHeight_eq_two_mul]

/-- Claim C2 (counterexample): with two coincident particles,
connectionDistance 1 and maxConnections 0, the build returns one pair, so
the cardinality bound |graph| ≤ maxConnections claimed for every
maxConnections fails: the code tests the cap only after pushing a pair. -/
theorem connections_cap_fails_at_zero :
    ¬ (((buildConnections zeroPos 2 1 0).length : ℤ) ≤ 0) := by
  rw [buildConnections_two_coincident]
  norm_num

/-- Claim C2 (amended): for every positions buffer, connectionDistance and
maxConnections, each stored pair (i, j) had distance strictly below
connectionDistance at construction time, satisfies i < j < n (hence no
pair (i, i)), and no pair — ordered or unordered — appears twice; and
whenever maxConnections ≥ 1, the built ConnectionGraph moreover has at
most maxConnections pairs. -/
theorem connections_invariants (pos : ℕ → Pt) (n : ℕ) (connDist : ℝ) (maxC : ℤ) :
    (1 ≤ maxC → ((buildConnections pos n connDist maxC).length : ℤ) ≤ maxC) ∧
      (∀ p ∈ buildConnections pos n connDist maxC,
        dist3 (pos p.1) (pos p.2) < connDist ∧ p.1 < p.2 ∧ p.2 < n) ∧
      (buildConnections pos n connDist maxC).Nodup := by
  refine ⟨fun hm => ?_, ?_, ?_⟩
  · exact buildOuter_length_le pos connDist maxC n (List.range n) [] (by simpa using hm)
  · intro p hp
    rcases buildOuter_mem pos connDist maxC n (List.range n) [] p
        (fun i hi => List.mem_range.mp hi) hp with h | h
    · simp at h
    · exact ⟨h.2.2.2, h.2.1, h.2.2.1⟩
  · exact buildOuter_nodup pos connDist maxC n (List.range n) [] (List.nodup_nil)
      (List.nodup_range n) (by simp)

/-- Claim C2 (witness): the amended invariants instantiated on two
coincident particles with maxConnections = 1, the cap hypothesis
discharged. -/
theorem connections_invariants_witness :
    (1 : ℤ) ≤ 1 ∧
      (((buildConnections zeroPos 2 1 1).length : ℤ) ≤ 1 ∧
        (∀ p ∈ buildConnections zeroPos 2 1 1,
          dist3 (zeroPos p.1) (zeroPos p.2) < 1 ∧ p.1 < p.2 ∧ p.2 < 2) ∧
        (buildConnections zeroPos 2 1 1).Nodup) :=
  ⟨by norm_num,
    (connections_invariants zeroPos 2 1 1).1 (by norm_num),
    (connections_invariants zeroPos 2 1 1).2.1,
    (connections_invariants zeroPos 2 1 1).2.2⟩

/-- Claim C3 (counterexample): with maxConnections = 0 (which is ≤ 0), two
coincident particles and connectionDistance 1, the build does not return an
empty ConnectionGraph: it scans row 0 and records the first qualifying
pair before the cap test runs. -/
theorem connections_nonpositive_cap_not_empty :
    buildConnections zeroPos 2 1 0 ≠ [] := by
  rw [buildConnections_two_coincident]
  simp

/-- With a cap that is already satisfied by the empty accumulator
(maxC ≤ 0), the inner loop over a consecutive index range either finds no
qualifying index — and then returns the empty list — or stops at the first
qualifying index j and returns exactly the singleton [(i, j)], every
smaller index in the range having failed the distance test. -/
lemma buildInner_nonpos_first (pos : ℕ → Pt) (connDist : ℝ) (maxC : ℤ) (i : ℕ)
    (hm : maxC ≤ 0) :
    ∀ (k s : ℕ),
      (buildInner pos connDist maxC i [] (List.range' s k) = [] ∧
        ∀ j, s ≤ j → j < s + k → ¬ dist3 (pos i) (pos j) < connDist) ∨
      (∃ j, s ≤ j ∧ j < s + k ∧
        buildInner pos connDist maxC i [] (List.range' s k) = [(i, j)] ∧
        dist3 (pos i) (pos j) < connDist ∧
        ∀ j', s ≤ j' → j' < j → ¬ dist3 (pos i) (pos j') < connDist) := by
  intro k
  induction k with
  | zero =>
    intro s
    left
    constructor
    · simp [buildInner]
    · intro j h1 h2
      omega
  | succ k ih =>
    intro s
    rw [List.range'_succ]
    by_cases hd : dist3 (pos i) (pos s) < connDist
    · right
      refine ⟨s, le_refl s, by omega, ?_, hd, ?_⟩
      · simp only [buildInner]
        rw [if_pos hd,
          if_pos (show maxC ≤ (([] : List (ℕ × ℕ)).length : ℤ) + 1 by simp; omega)]
        simp
      · intro j' h1 h2
        omega
    · have hstep : buildInner pos connDist maxC i [] (s :: List.range' (s + 1) k)
          = buildInner pos connDist maxC i [] (List.range' (s + 1) k) := by
        simp only [buildInner]
        rw [if_neg hd]
      rcases ih (s + 1) with ⟨h1, h2⟩ | ⟨j, hj1, hj2, hj3, hj4, hj5⟩
      · left
        refine ⟨by rw [hstep]; exact h1, ?_⟩
        intro j hji hjk
        rcases eq_or_lt_of_le hji with rfl | hlt
        · exact hd
        · exact h2 j (by omega) (by omega)
      · right
        refine ⟨j, by omega, by omega, by rw [hstep]; exact hj3, hj4, ?_⟩
        intro j' hji hjlt
        rcases eq_or_lt_of_le hji with rfl | hlt
        · exact hd
        · exact hj5 j' (by omega) hjlt

/-- Claim C3 (amended): if maxConnections ≤ 0, the build is not a guarded
no-op: it scans row i = 0 and stops at the first qualifying pair.  The
result holds at most one pair; it is empty exactly when no particle j,
0 < j < n, is within connectionDistance of particle 0; and any returned
pair p makes the whole result the singleton [p], with p = (0, j),
0 < j < n, distance below connectionDistance, and every smaller index
0 < j' < j having failed the distance test. -/
theorem connections_nonpositive_cap (pos : ℕ → Pt) (n : ℕ) (connDist : ℝ) (maxC : ℤ)
    (hm : maxC ≤ 0) :
    (buildConnections pos n connDist maxC).length ≤ 1 ∧
      (buildConnections pos n connDist maxC = [] ↔
        ∀ j, 0 < j → j < n → ¬ dist3 (pos 0) (pos j) < connDist) ∧
      ∀ p ∈ buildConnections pos n connDist maxC,
        buildConnections pos n connDist maxC = [p] ∧
        p.1 = 0 ∧ 0 < p.2 ∧ p.2 < n ∧ dist3 (pos 0) (pos p.2) < connDist ∧
        ∀ j, 0 < j → j < p.2 → ¬ dist3 (pos 0) (pos j) < connDist := by
  cases n with
  | zero =>
    refine ⟨?_, ?_, ?_⟩
    · simp [buildConnections, buildOuter]
    · constructor
      · intro _ j h1 h2
        omega
      · intro _
        simp [buildConnections, buildOuter]
    · intro p hp
      simp [buildConnections, buildOuter] at hp
  | succ k =>
    have hrange : List.range (k + 1) = 0 :: List.range' 1 k := by
      rw [List.range_eq_range', List.range'_succ]
    have hstop : maxC ≤ ((buildInner pos connDist maxC 0 [] (List.range' (0 + 1) (k + 1 - (0 + 1)))).length : ℤ) := by
      have := Int.ofNat_nonneg (buildInner pos connDist maxC 0 [] (List.range' (0 + 1) (k + 1 - (0 + 1)))).length
      omega
    have hres : buildConnections pos (k + 1) connDist maxC
        = buildInner pos connDist maxC 0 [] (List.range' (0 + 1) (k + 1 - (0 + 1))) := by
      unfold buildConnections
      rw [hrange]
      simp only [buildOuter]
      rw [if_pos hstop]
    have hres' : buildConnections pos (k + 1) connDist maxC
        = buildInner pos connDist maxC 0 [] (List.range' 1 k) := by
      rw [hres]
      norm_num
    rcases buildInner_nonpos_first pos connDist maxC 0 hm k 1 with
      ⟨h1, h2⟩ | ⟨j, hj1, hj2, hj3, hj4, hj5⟩
    · refine ⟨?_, ?_, ?_⟩
      · rw [hres', h1]
        simp
      · constructor
        · intro _ j hj0 hjn
          exact h2 j (by omega) (by omega)
        · intro _
          rw [hres']
          exact h1
      · intro p hp
        rw [hres', h1] at hp
        simp at hp
    · refine ⟨?_, ?_, ?_⟩
      · rw [hres', hj3]
        simp
      · constructor
        · intro hemp
          rw [hres', hj3] at hemp
          simp at hemp
        · intro hall
          exact absurd hj4 (hall j (by omega) (by omega))
      · intro p hp
        rw [hres', hj3] at hp
        simp only [List.mem_singleton] at hp
        subst hp
        exact ⟨by rw [hres']; exact hj3, rfl, by omega, by omega, hj4,
          fun j' h1 h2 => hj5 j' (by omega) h2⟩

/-- Claim C3 (witness): the amended statement instantiated on two
coincident particles with maxConnections = −2. -/
theorem connections_nonpositive_cap_witness :
    (-2 : ℤ) ≤ 0 ∧
      ((buildConnections zeroPos 2 1 (-2)).length ≤ 1 ∧
        (buildConnections zeroPos 2 1 (-2) = [] ↔
          ∀ j, 0 < j → j < 2 → ¬ dist3 (zeroPos 0) (zeroPos j) < 1) ∧
        ∀ p ∈ buildConnections zeroPos 2 1 (-2),
          buildConnections zeroPos 2 1 (-2) = [p] ∧
          p.1 = 0 ∧ 0 < p.2 ∧ p.2 < 2 ∧ dist3 (zeroPos 0) (zeroPos p.2) < 1 ∧
          ∀ j, 0 < j → j < p.2 → ¬ dist3 (zeroPos 0) (zeroPos j) < 1) :=
  ⟨by norm_num, connections_nonpositive_cap zeroPos 2 1 (-2) (by norm_num)⟩

/-- Concrete draw records and a trivial stand-in for the external HSL→RGB
conversion, used to instantiate the generators. -/
def galaxyRandZero : GalaxyRand := ⟨0, 0, 0, 0, 0, 0, 0, 0, 0⟩

/-- A galaxy draw record whose radius draw is one half. -/
noncomputable def galaxyRandHalf : GalaxyRand := ⟨0, 0.5, 0, 0, 0, 0, 0, 0, 0⟩

/-- A concrete color draw record (all draws 0). -/
def colorRandZero : ColorRand := ⟨0, 0, 0⟩

/-- A concrete WaveParticles draw record (all draws 0). -/
def wpRandZero : WPRand := ⟨0, 0, 0, 0, 0⟩

/-- A concrete GreatWave draw record (all draws 0). -/
def gwRandZero : GWRand := ⟨0, 0, 0, 0⟩

/-- A trivial concrete HSL→RGB conversion. -/
def setHSLZero : ℝ → ℝ → ℝ → Pt := fun _ _ _ => (0, 0, 0)

/-- Claim C4 (counterexample): with count = −1 every generator's
Float32Array(count·3) allocation throws a RangeError (modelled as `none`),
so no empty ParticleSet is returned and an error is raised, contrary to
the claim. -/
theorem generators_negative_count_error :
    galaxyGen setHSLZero (fun _ => galaxyRandZero) (fun _ => colorRandZero) (-1) 25 4 8 3 0.5
        = none ∧
      waveParticlesGen setHSLZero (fun _ => wpRandZero) (-1) 8 500 0.6 = none ∧
      greatWaveGen setHSLZero (fun _ => gwRandZero) (-1) 25 = none := by
  refine ⟨?_, ?_, ?_⟩ <;> norm_num [galaxyGen, waveParticlesGen, greatWaveGen]

/-- Claim C4 (amended): for count = 0 each particle-set generator (galaxy
field, wave-particle cloud, Great Wave cloud) returns an empty ParticleSet
with empty position/color buffers (and an empty connection list); for
count < 0 the typed-array allocation Float32Array(count·3) throws a
RangeError instead of returning a ParticleSet. -/
theorem generators_nonpositive_count (setHSL : ℝ → ℝ → ℝ → Pt)
    (rand : ℕ → GalaxyRand) (crand : ℕ → ColorRand) (wrand : ℕ → WPRand) (grand : ℕ → GWRand)
    (count : ℤ)
    (galaxyRadius armCount barLength bulgeSize spiralTightness connectionDistance baseHue : ℝ)
    (maxConnections : ℤ) (hc : count ≤ 0) :
    galaxyGen setHSL rand crand count galaxyRadius armCount barLength bulgeSize spiralTightness
        = (if count < 0 then none else some ⟨[], []⟩) ∧
      waveParticlesGen setHSL wrand count connectionDistance maxConnections baseHue
        = (if count < 0 then none else some (⟨[], []⟩, [])) ∧
      greatWaveGen setHSL grand count galaxyRadius
        = (if count < 0 then none else some ⟨[], []⟩) := by
  rcases lt_or_eq_of_le hc with hneg | h0
  · have h3 : count * 3 < 0 := by omega
    refine ⟨?_, ?_, ?_⟩ <;> simp [galaxyGen, waveParticlesGen, greatWaveGen, h3, hneg]
  · subst h0
    rw [if_neg (by norm_num)]
    refine ⟨?_, ?_, ?_⟩ <;>
      norm_num [galaxyGen, waveParticlesGen, greatWaveGen, buildConnections, buildOuter]

/-- Claim C4 (witness): the amended statement instantiated at count = 0
with concrete draw sources. -/
theorem generators_nonpositive_count_witness :
    (0 : ℤ) ≤ 0 ∧
      (galaxyGen setHSLZero (fun _ => galaxyRandZero) (fun _ => colorRandZero) 0 25 4 8 3 0.5
          = (if (0 : ℤ) < 0 then none else some ⟨[], []⟩) ∧
        waveParticlesGen setHSLZero (fun _ => wpRandZero) 0 8 500 0.6
          = (if (0 : ℤ) < 0 then none else some (⟨[], []⟩, [])) ∧
        greatWaveGen setHSLZero (fun _ => gwRandZero) 0 25
          = (if (0 : ℤ) < 0 then none else some ⟨[], []⟩)) :=
  ⟨le_refl 0,
    generators_nonpositive_count setHSLZero (fun _ => galaxyRandZero) (fun _ => colorRandZero)
      (fun _ => wpRandZero) (fun _ => gwRandZero) 0 25 4 8 3 0.5 8 0.6 500 (le_refl 0)⟩

/-- With radius > 0 and bulgeSize ≤ 0, the JS evaluation of the spiral
angle is +∞ or NaN (never finite), and the x coordinate built from it is
NaN: Math.log(radius/0) = log(+∞) = +∞ and Math.log of a negative quotient
is NaN; cos of either is NaN. -/
lemma spiralJS_nonpos_bulge (r bs tight armAngle bar : ℝ) (hr : 0 < r) (hbs : bs ≤ 0) :
    ¬ jsFinite (spiralAngleJS r bs tight armAngle) ∧
      spiralXJS r bs tight armAngle bar = JVal.nan := by
  have hlog : jsLog (jsDiv r bs) = JVal.nan ∨ jsLog (jsDiv r bs) = JVal.inf true := by
    rcases eq_or_lt_of_le hbs with h0 | hneg
    · right
      subst h0
      simp [jsDiv, hr.ne', hr, jsLog]
    · left
      have hq : r / bs < 0 := div_neg_of_pos_of_neg hr hneg
      simp [jsDiv, hneg.ne, jsLog, hq]
  have hstep : ∀ w : JVal, w = JVal.nan ∨ w = JVal.inf true →
      ¬ jsFinite (jsAddNum armAngle (jsMulNum w tight)) ∧
        jsMulNum (jsCos (jsAddNumR (jsAddNum armAngle (jsMulNum w tight)) (bar * 0.3))) r
          = JVal.nan := by
    intro w hw
    rcases hw with hw | hw <;> subst hw
    · simp [jsMulNum, jsAddNum, jsAddNumR, jsCos, jsFinite]
    · rcases lt_trichotomy tight 0 with ht | ht | ht
      · simp [jsMulNum, ht.ne, not_lt.mpr ht.le, jsAddNum, jsAddNumR, jsCos, jsFinite]
      · simp [jsMulNum, ht, jsAddNum, jsAddNumR, jsCos, jsFinite]
      · simp [jsMulNum, ht, ht.ne', jsAddNum, jsAddNumR, jsCos, jsFinite]
  have := hstep (jsLog (jsDiv r bs)) hlog
  exact ⟨this.1, this.2⟩

/-- Claim C5 (counterexample): with bulgeSize = 0 and a disk particle at
radius 1 (arm angle 0, spiralTightness 0.5, no bar term), the spiral angle
evaluates to +∞ — not finite, no minimum positive value is substituted —
and the particle's x coordinate evaluates to NaN. -/
theorem galaxy_spiral_angle_not_finite :
    ¬ jsFinite (spiralAngleJS 1 0 0.5 0) ∧ spiralXJS 1 0 0.5 0 0 = JVal.nan := by
  have h := spiralJS_nonpos_bulge 1 0 0.5 0 0 (by norm_num) (le_refl 0)
  exact h

/-- Claim C5 (amended): with bulgeSize ≤ 0 no particle of positive radius
takes the bulge branch (radius < bulgeSize is impossible), but the code
substitutes nothing in the logarithm: evaluated with JavaScript number
semantics, ln(radius/bulgeSize) makes the spiral angle non-finite (+∞ for
bulgeSize = 0, NaN for bulgeSize < 0) and the particle's x coordinate NaN. -/
theorem galaxy_nonpositive_bulge_unguarded (u : GalaxyRand)
    (galaxyRadius bulgeSize spiralTightness armAngle barInfluence : ℝ)
    (hbs : bulgeSize ≤ 0) (hpos : 0 < u.uRadius * galaxyRadius) :
    ¬ (u.uRadius * galaxyRadius < bulgeSize) ∧
      ¬ jsFinite (spiralAngleJS (u.uRadius * galaxyRadius) bulgeSize spiralTightness armAngle) ∧
      spiralXJS (u.uRadius * galaxyRadius) bulgeSize spiralTightness armAngle barInfluence
        = JVal.nan := by
  have h := spiralJS_nonpos_bulge (u.uRadius * galaxyRadius) bulgeSize spiralTightness
    armAngle barInfluence hpos hbs
  exact ⟨not_lt.mpr (hbs.trans hpos.le), h.1, h.2⟩

/-- Claim C5 (witness): the amended statement instantiated at
galaxyRadius = 25, bulgeSize = 0 and the radius draw one half. -/
theorem galaxy_nonpositive_bulge_unguarded_witness :
    ((0 : ℝ) ≤ 0 ∧ 0 < galaxyRandHalf.uRadius * 25) ∧
      (¬ (galaxyRandHalf.uRadius * 25 < 0) ∧
        ¬ jsFinite (spiralAngleJS (galaxyRandHalf.uRadius * 25) 0 0.5 0) ∧
        spiralXJS (galaxyRandHalf.uRadius * 25) 0 0.5 0 0 = JVal.nan) :=
  ⟨⟨le_refl 0, by norm_num [galaxyRandHalf]⟩,
    galaxy_nonpositive_bulge_unguarded galaxyRandHalf 25 0 0.5 0 0 (le_refl 0)
      (by norm_num [galaxyRandHalf])⟩

/-- The planar distance is a square root, hence nonnegative. -/
lemma planarDist_nonneg (p : Pt) : 0 ≤ planarDist p := Real.sqrt_nonneg _

/-- Claim C7 (counterexample): with galaxyRadius = −1 (bulgeSize = 1,
draws all zero) the generated particle's planar distance — a square root,
hence nonnegative — cannot be at most galaxyRadius + 0.3 = −0.7, so the
bound claimed for arbitrary galaxyRadius fails. -/
theorem galaxy_planar_bound_fails_neg_radius :
    ¬ planarDist (galaxyParticle galaxyRandZero (-1) 4 8 1 0.5) ≤ (-1) + 0.3 := by
  intro h
  have h0 := planarDist_nonneg (galaxyParticle galaxyRandZero (-1) 4 8 1 0.5)
  linarith

/-- Claim C7 (amended): for galaxyRadius ≥ 0 (and unit-interval random
draws), every generated galaxy particle has planar distance from the
origin at most galaxyRadius + 0.3, and every particle generated by the
bulge branch (radius < bulgeSize) has planar distance at most
bulgeSize + 0.3. -/
theorem galaxy_particle_planar_bound (u : GalaxyRand)
    (galaxyRadius armCount barLength bulgeSize spiralTightness : ℝ)
    (hR : 0 ≤ galaxyRadius) (hu0 : 0 ≤ u.uRadius) (hu1 : u.uRadius < 1)
    (hr0 : 0 ≤ u.uR) (hr1 : u.uR < 1)
    (hjx0 : 0 ≤ u.uJx) (hjx1 : u.uJx < 1) (hjz0 : 0 ≤ u.uJz) (hjz1 : u.uJz < 1) :
    planarDist (galaxyParticle u galaxyRadius armCount barLength bulgeSize spiralTightness)
        ≤ galaxyRadius + 0.3 ∧
      (u.uRadius * galaxyRadius < bulgeSize →
        planarDist (galaxyParticle u galaxyRadius armCount barLength bulgeSize spiralTightness)
          ≤ bulgeSize + 0.3) := by
  have hbase := galaxyBase_sq_le u galaxyRadius armCount barLength bulgeSize spiralTightness
    hr0 hr1.le
  have hrad : 0 ≤ u.uRadius * galaxyRadius := mul_nonneg hu0 hR
  have hkey : planarDist (galaxyParticle u galaxyRadius armCount barLength bulgeSize spiralTightness)
      ≤ u.uRadius * galaxyRadius + 0.3 := by
    unfold planarDist galaxyParticle
    exact planar_jitter_bound _ _ _ _ _ hbase hrad
      (by rw [abs_le]; constructor <;> nlinarith)
      (by rw [abs_le]; constructor <;> nlinarith)
  constructor
  · have hle : u.uRadius * galaxyRadius ≤ galaxyRadius := by nlinarith
    linarith
  · intro hb
    linarith

/-- Claim C7 (witness): the amended bound instantiated at the default
parameters (galaxyRadius 25, bulgeSize 3) with all draws zero. -/
theorem galaxy_particle_planar_bound_witness :
    ((0 : ℝ) ≤ 25 ∧ 0 ≤ galaxyRandZero.uRadius ∧ galaxyRandZero.uRadius < 1 ∧
        0 ≤ galaxyRandZero.uR ∧ galaxyRandZero.uR < 1 ∧
        0 ≤ galaxyRandZero.uJx ∧ galaxyRandZero.uJx < 1 ∧
        0 ≤ galaxyRandZero.uJz ∧ galaxyRandZero.uJz < 1) ∧
      (planarDist (galaxyParticle galaxyRandZero 25 4 8 3 0.5) ≤ 25 + 0.3 ∧
        (galaxyRandZero.uRadius * 25 < 3 →
          planarDist (galaxyParticle galaxyRandZero 25 4 8 3 0.5) ≤ 3 + 0.3)) :=
  ⟨by norm_num [galaxyRandZero],
    galaxy_particle_planar_bound galaxyRandZero 25 4 8 3 0.5 (by norm_num)
      (by norm_num [galaxyRandZero]) (by norm_num [galaxyRandZero])
      (by norm_num [galaxyRandZero]) (by norm_num [galaxyRandZero])
      (by norm_num [galaxyRandZero]) (by norm_num [galaxyRandZero])
      (by norm_num [galaxyRandZero]) (by norm_num [galaxyRandZero])⟩

/-- Claim C6: the Great Wave displacement computed by the code (both the
GreatWave particle kernel and the GreatWaveSurface kernel) equals the
specification's TravelingWaveField formula radial + angular at every point,
time and parameter values; in particular with amplitude = 0 the
displacement is 0 everywhere. -/
theorem greatWave_displacement_eq_spec (x z time amplitude waveLength waveSpeed : ℝ) :
    greatWaveDisplacement x z time amplitude waveLength waveSpeed
        = travelingWaveFieldSpec x z time amplitude waveLength waveSpeed ∧
      greatWaveSurfaceDisplacement x z time amplitude waveLength waveSpeed
        = travelingWaveFieldSpec x z time amplitude waveLength waveSpeed ∧
      greatWaveDisplacement x z time 0 waveLength waveSpeed = 0 := by
  have key : ∀ a : ℝ, greatWaveDisplacement x z time a waveLength waveSpeed
      = travelingWaveFieldSpec x z time a waveLength waveSpeed := by
    intro a
    simp only [greatWaveDisplacement, travelingWaveFieldSpec]
    have hsq : x * x + z * z = x ^ 2 + z ^ 2 := by ring
    rw [hsq]
    have h1 : (Real.sqrt (x ^ 2 + z ^ 2) / waveLength - time * waveSpeed) * Real.pi * 2
        = (Real.sqrt (x ^ 2 + z ^ 2) / waveLength - time * waveSpeed) * (2 * Real.pi) := by
      ring
    have h2 : atan2 z x * 2 + time * waveSpeed * 0.5
        = 2 * atan2 z x + time * waveSpeed * 0.5 := by ring
    rw [h1, h2]
    ring
  refine ⟨key amplitude, ?_, ?_⟩
  · rw [show greatWaveSurfaceDisplacement x z time amplitude waveLength waveSpeed
        = greatWaveDisplacement x z time amplitude waveLength waveSpeed from rfl]
    exact key amplitude
  · simp only [greatWaveDisplacement]
    ring

/-- Claim C8: the three per-frame updates (dark-matter WaveField,
WaveParticles, Great Wave) are idempotent in time: applying an update twice
with the same time value yields the same position buffer as applying it
once, for every buffer and all parameter values. -/
theorem updates_idempotent (ps qs rs : List Pt) (elapsed speed intensity time amplitude waveLength waveSpeed : ℝ)
    (sw : Bool) :
    waveFieldUpdate (waveFieldUpdate ps elapsed speed intensity) elapsed speed intensity
        = waveFieldUpdate ps elapsed speed intensity ∧
      waveParticlesUpdate (waveParticlesUpdate qs elapsed speed intensity) elapsed speed intensity
        = waveParticlesUpdate qs elapsed speed intensity ∧
      greatWaveUpdate sw (greatWaveUpdate sw rs time amplitude waveLength waveSpeed)
          time amplitude waveLength waveSpeed
        = greatWaveUpdate sw rs time amplitude waveLength waveSpeed := by
  refine ⟨?_, ?_, ?_⟩
  · simp only [waveFieldUpdate]
    exact map_yRewrite_idem (fun a b => waveFieldHeight a b (elapsed * speed) intensity) ps
  · simp only [waveParticlesUpdate]
    exact map_yRewrite_idem (fun a b => waveParticlesHeight a b (elapsed * speed) intensity) qs
  · cases sw with
    | false => simp [greatWaveUpdate]
    | true =>
      simp only [greatWaveUpdate, if_pos]
      exact map_yRewrite_idem
        (fun a b => greatWaveDisplacement a b time amplitude waveLength waveSpeed) rs

/-- Claim C9: one frame of the WaveParticles update rewrites only the y
slot of each particle: the buffer of new positions is exactly the old
buffer with y replaced by the wave height of the unchanged x and z; the x
components, the z components, the particle count (hence index validity for
the connection graph) and the color buffer are all unchanged. -/
theorem waveParticles_frame_only_y (ps cols : List Pt) (elapsed speed intensity : ℝ) :
    (waveParticlesFrame ps cols elapsed speed intensity).1
        = ps.map (fun p => (p.1, waveParticlesHeight p.1 p.2.2 (elapsed * speed) intensity, p.2.2)) ∧
      (waveParticlesFrame ps cols elapsed speed intensity).1.map (fun p => p.1)
        = ps.map (fun p => p.1) ∧
      (waveParticlesFrame ps cols elapsed speed intensity).1.map (fun p => p.2.2)
        = ps.map (fun p => p.2.2) ∧
      (waveParticlesFrame ps cols elapsed speed intensity).1.length = ps.length ∧
      (waveParticlesFrame ps cols elapsed speed intensity).2 = cols := by
  refine ⟨rfl, ?_, ?_, ?_, rfl⟩
  · simp [waveParticlesFrame, waveParticlesUpdate, List.map_map, Function.comp]
  · simp [waveParticlesFrame, waveParticlesUpdate, List.map_map, Function.comp]
  · simp [waveParticlesFrame, waveParticlesUpdate]

/-- Claim C10 (counterexample): with amplitude = −1 at the point (1, 0) and
time 0 (waveLength = waveSpeed = 1), the absolute displacement is not at
most 1.3 × amplitude = −1.3: an absolute value is never below a negative
number, so the claimed bound fails for every negative amplitude. -/
theorem greatWave_displacement_abs_not_le_neg :
    ¬ |greatWaveDisplacement 1 0 0 (-1) 1 1| ≤ 1.3 * (-1) := by
  intro h
  have h0 : (0 : ℝ) ≤ |greatWaveDisplacement 1 0 0 (-1) 1 1| := abs_nonneg _
  linarith

/-- Claim C10 (amended): for every point, time and parameter values, the
absolute value of the Great Wave displacement is at most 1.3 × |amplitude|
(the radial term is bounded by |amplitude| and the angular term by
0.3 × |amplitude|). -/
theorem greatWave_displacement_abs_le (x z time amplitude waveLength waveSpeed : ℝ) :
    |greatWaveDisplacement x z time amplitude waveLength waveSpeed| ≤ 1.3 * |amplitude| := by
  simp only [greatWaveDisplacement]
  have h1 := Real.abs_sin_le_one
    ((Real.sqrt (x * x + z * z) / waveLength - time * waveSpeed) * Real.pi * 2)
  have h2 := Real.abs_sin_le_one (atan2 z x * 2 + time * waveSpeed * 0.5)
  have hA : (0 : ℝ) ≤ |amplitude| := abs_nonneg _
  calc |Real.sin ((Real.sqrt (x * x + z * z) / waveLength - time * waveSpeed) * Real.pi * 2) * amplitude
        + Real.sin (atan2 z x * 2 + time * waveSpeed * 0.5) * amplitude * 0.3|
      ≤ |Real.sin ((Real.sqrt (x * x + z * z) / waveLength - time * waveSpeed) * Real.pi * 2) * amplitude|
        + |Real.sin (atan2 z x * 2 + time * waveSpeed * 0.5) * amplitude * 0.3| := abs_add _ _
    _ ≤ 1.3 * |amplitude| := by
        rw [abs_mul, abs_mul, abs_mul]
        have hs1 : (0 : ℝ) ≤ |Real.sin ((Real.sqrt (x * x + z * z) / waveLength - time * waveSpeed) * Real.pi * 2)| :=
          abs_nonneg _
        have hs2 : (0 : ℝ) ≤ |Real.sin (atan2 z x * 2 + time * waveSpeed * 0.5)| := abs_nonneg _
        have habs3 : |(0.3 : ℝ)| = 0.3 := by norm_num
        rw [habs3]
        nlinarith

end MilkyWay
